import Mathlib

/-!
Verification of the ForecastFlow forecasting core (src/models.py) against its
natural-language specification.

The embedding models:
* pandas timestamps as a concrete Gregorian `Date` structure;
* float values as exact rationals, with `Option ℚ` representing a possibly
  missing (NaN/null) value, NaN propagating through arithmetic as `none`;
* the AutoTS library (an external dependency, not part of the repository) as
  an oracle: the outcome of each `fit` call is a parameter of the embedded
  `train` function (`FitOutcome`), since the claims quantify over library
  behaviours such as "training fails" or "the best model is ZeroesNaive";
* `pd.DataFrame` single-column time series as `List (Date × Option ℚ)`.

The date-parsing step (`pd.to_datetime`) and the value-column lookup of
`prepare_data` are outside the embedding: inputs are already lists of parsed
dates with a single value column, which is the situation every claim is about.
-/

namespace ForecastFlow

/-! ### Calendar model (Gregorian dates, pandas month arithmetic) -/

def isLeap (y : ℕ) : Bool :=
  (y % 4 == 0 && y % 100 != 0) || (y % 400 == 0)

def daysInMonth (y m : ℕ) : ℕ :=
  if m = 2 then (if isLeap y then 29 else 28)
  else if m = 4 ∨ m = 6 ∨ m = 9 ∨ m = 11 then 30
  else 31

structure Date where
  y : ℕ
  m : ℕ
  d : ℕ
deriving DecidableEq, Repr

/-- Chronological sort key: strictly monotone in (year, month, day) for
calendar dates (month ≤ 12 < 16, day ≤ 31 < 32). -/
def Date.key (dt : Date) : ℕ := dt.y * 512 + dt.m * 32 + dt.d

/-- Advance a (year, month) pair by `k` months, months numbered 1..12. -/
def ymAddMonths (y m k : ℕ) : ℕ × ℕ :=
  let t := y * 12 + (m - 1) + k
  (t / 12, t % 12 + 1)

/-- Last day of a calendar month (the pandas frequency tag ME anchor). -/
def monthEnd (y m : ℕ) : Date := ⟨y, m, daysInMonth y m⟩

/-- pandas `MonthBegin(1)`: roll forward to the first day of the next month
(also when the date is already a month start). -/
def nextMonthStart (dt : Date) : Date :=
  let ym := ymAddMonths dt.y dt.m 1
  ⟨ym.1, ym.2, 1⟩

def Date.succDay (dt : Date) : Date :=
  if dt.d < daysInMonth dt.y dt.m then ⟨dt.y, dt.m, dt.d + 1⟩
  else nextMonthStart dt

def addDays (dt : Date) : ℕ → Date
  | 0 => dt
  | k + 1 => (addDays dt k).succDay

/-- pandas `date_range(start, periods == n, freq == ME)`: the first `n`
month-end dates on or after `start`. -/
def dateRangeME (s : Date) (n : ℕ) : List Date :=
  let base : ℕ × ℕ :=
    if s.d ≤ daysInMonth s.y s.m then (s.y, s.m) else ymAddMonths s.y s.m 1
  (List.range n).map (fun k =>
    let ym := ymAddMonths base.1 base.2 k
    monthEnd ym.1 ym.2)

/-! ### Data model -/

/-- A single-column time series: (timestamp, possibly-null value) rows.
Models both the raw input frame and prepared/forecast frames. -/
abbrev Series := List (Date × Option ℚ)

/-- The frequency strings the code branches on in `_simple_trend_forecast`:
the two explicit branches D and ME, and the catch-all branch for any other
fixed-step frequency string (`stepDays` days per period). -/
inductive Freq where
  | D : Freq
  | ME : Freq
  | fixedStep : ℕ → Freq
deriving DecidableEq, Repr

/-- The mutable attributes of `UniversalForecastModel` the claims refer to. -/
structure ModelState where
  forecast_length : ℕ
  frequency : Freq
  model_complexity : String
  best_model_name : Option String
  training_successful : Bool
  historical_data : Option Series
deriving DecidableEq, Repr

/-- `UniversalForecastModel.__init__`. -/
def initState (fl : ℕ) (freq : Freq) (tier : String) : ModelState :=
  { forecast_length := fl
    frequency := freq
    model_complexity := tier
    best_model_name := none
    training_successful := false
    historical_data := none }

/-! ### Data preparation (`prepare_data`, src/models.py lines 25-66) -/

/-- Helper for `dedupFirst`: drop every row whose timestamp was already
seen, scanning left to right. -/
def dedupFirstAux (seen : List Date) : Series → Series
  | [] => []
  | p :: rest =>
    if p.1 ∈ seen then dedupFirstAux seen rest
    else p :: dedupFirstAux (p.1 :: seen) rest

/-- `df.drop_duplicates(subset=[date_column])`: keep the first occurrence of
each timestamp. -/
def dedupFirst (l : Series) : Series := dedupFirstAux [] l

def leDate (a b : Date × Option ℚ) : Prop := a.1.key ≤ b.1.key

instance : DecidableRel leDate := fun a b => Nat.decLe a.1.key b.1.key

instance : IsTotal (Date × Option ℚ) leDate := ⟨fun a b => Nat.le_total _ _⟩

instance : IsTrans (Date × Option ℚ) leDate := ⟨fun _ _ _ => Nat.le_trans⟩

/-- `drop_duplicates` followed by `sort_values(date_column)`. -/
def sortDedup (raw : Series) : Series :=
  List.insertionSort leDate (dedupFirst raw)

/-- Nearest valid (non-null) value at an index ≤ `i` (pandas interpolation
looks backwards for the previous observation). -/
def prevValid (vs : List (Option ℚ)) : ℕ → Option (ℕ × ℚ)
  | 0 =>
    match vs.get? 0 with
    | some (some v) => some (0, v)
    | _ => none
  | i + 1 =>
    match vs.get? (i + 1) with
    | some (some v) => some (i + 1, v)
    | _ => prevValid vs i

/-- Nearest valid (non-null) value at an index > `i`. -/
def nextValid (vs : List (Option ℚ)) (i : ℕ) : Option (ℕ × ℚ) :=
  ((List.range vs.length).drop (i + 1)).findSome? (fun j =>
    match vs.get? j with
    | some (some v) => some (j, v)
    | _ => none)

/-- One entry of `Series.interpolate()` with the pandas defaults
(`method='linear'`, `limit_direction='forward'`): positional linear
interpolation between the nearest observations, last-value fill after the
final observation, leading nulls left in place. -/
def interpAt (vs : List (Option ℚ)) (i : ℕ) : Option ℚ :=
  match vs.get? i with
  | some (some v) => some v
  | some none =>
    match prevValid vs i, nextValid vs i with
    | some pv, some nv =>
      some (pv.2 + (nv.2 - pv.2) * (((i : ℚ) - pv.1) / ((nv.1 : ℚ) - pv.1)))
    | some pv, none => some pv.2
    | none, _ => none
  | none => none

/-- pandas `Series.interpolate()` with default settings. -/
def interpolate (vs : List (Option ℚ)) : List (Option ℚ) :=
  (List.range vs.length).map (interpAt vs)

/-- `UniversalForecastModel.prepare_data`: dedup, sort, reject series shorter
than 6 rows, retain the (pre-interpolation) series in `historical_data`, and
interpolate nulls.  Returns the state after the call together with the
prepared series (`none` models the Python `return None`). -/
def prepare_data (st : ModelState) (raw : Series) : ModelState × Option Series :=
  let base := sortDedup raw
  if base.length < 6 then (st, none)
  else
    let st1 := { st with historical_data := some base }
    let vals := base.map Prod.snd
    let ts :=
      if vals.any (fun ov => ov.isNone) then
        (base.map Prod.fst).zip (interpolate vals)
      else base
    (st1, some ts)

/-! ### Model selection (`get_model_list`, lines 68-81; effort profile,
lines 97-105) -/

/-- `UniversalForecastModel.get_model_list` (the `data_length` argument is
taken but never read, as in the source). -/
def getModelList (model_complexity : String) (data_length : ℕ) : String :=
  if model_complexity = "simple" then "superfast"
  else if model_complexity = "medium" then "fast"
  else if model_complexity = "complex" then "default"
  else "all"

/-- The inline effort profile of `train`: (max_generations, num_validations)
as a function of the prepared data length. -/
def trainingEffort (data_length : ℕ) : ℕ × ℕ :=
  if data_length ≤ 12 then (1, 1)
  else if data_length ≤ 24 then (2, 2)
  else (3, 3)

/-! ### Trend extrapolation (`_simple_trend_forecast`, lines 217-265) -/

/-- `np.polyfit(x, values, 1)` with `x = 0, 1, ..., n-1`: the degree-1
least-squares coefficients (slope, intercept), in exact rational
arithmetic. -/
def polyfit1 (ys : List ℚ) : ℚ × ℚ :=
  let n : ℚ := ys.length
  let xs : List ℚ := (List.range ys.length).map (fun (i : ℕ) => (i : ℚ))
  let sx := xs.sum
  let sy := ys.sum
  let sxx := (xs.map (fun x => x * x)).sum
  let sxy := (List.zipWith (fun x y => x * y) xs ys).sum
  let denom := n * sxx - sx * sx
  let slope := (n * sxy - sx * sy) / denom
  (slope, (sy - slope * sx) / n)

/-- The future index generation of `_simple_trend_forecast` (lines 240-251):
`pd.date_range` at the configured frequency, starting one period after the
last historical timestamp (one day for D, next month start then month-end
anchoring for ME, a fixed 30-day offset for other frequency strings). -/
def forecastDates (freq : Freq) (last : Date) (n : ℕ) : List Date :=
  match freq with
  | .D => (List.range n).map (fun k => addDays last (k + 1))
  | .ME => dateRangeME (nextMonthStart last) n
  | .fixedStep s => (List.range n).map (fun k => addDays (addDays last 30) (k * s))

/-- `UniversalForecastModel._simple_trend_forecast`.  With no historical data
(or an empty frame, where `values[-1]` raises an `IndexError` that the
enclosing `except` turns into `None`) the result is `none`; with one row the
last value is repeated; otherwise a least-squares line is extrapolated.  A
null (NaN) anywhere in the historical values makes the fitted coefficients
NaN (`none`), which propagates into every forecast value. -/
def simpleTrendForecast (st : ModelState) : Option Series :=
  match st.historical_data with
  | none => none
  | some hist =>
    let values := hist.map Prod.snd
    match hist.getLast? with
    | none => none
    | some lastPt =>
      if values.length < 2 then
        match values.getLast? with
        | none => none
        | some lv =>
          some ((forecastDates st.frequency lastPt.1 st.forecast_length).zip
            (List.replicate st.forecast_length lv))
      else
        let coeffs : Option (ℚ × ℚ) :=
          if values.all (fun ov => ov.isSome) then
            some (polyfit1 (values.map (fun ov => ov.getD 0)))
          else none
        let fvals := (List.range st.forecast_length).map (fun (k : ℕ) =>
          coeffs.map (fun sb => sb.1 * ((values.length : ℚ) + (k : ℚ)) + sb.2))
        some ((forecastDates st.frequency lastPt.1 st.forecast_length).zip fvals)

/-! ### Training (`train`, lines 83-151; `_train_simple_fallback`,
lines 153-192)

The AutoTS library calls are oracles: `FitOutcome` is what one `fit` call
produced — an exception, or a fitted model whose `best_model_name` attribute
is missing/None (`fitted none`) or a string.  The primary-tier oracle is a
function of the arguments the code passes to `AutoTS` that vary per run
(model list, generations, validations), so the wiring of `get_model_list`
and the effort profile into the library call is part of the embedding. -/

inductive FitOutcome where
  | fitError : FitOutcome
  | fitted : Option String → FitOutcome
deriving DecidableEq, Repr

/-- Python truthiness of the `best_model_name` attribute value. -/
def isTruthy : Option String → Bool
  | some s => !(s == "")
  | none => false

/-- The tail of `_train_simple_fallback` after its own data preparation: the
fallback `fit` and the acceptance check (any truthy best model name is
accepted and suffixed). -/
def trainSimpleFallbackCore (st : ModelState) (f : FitOutcome) : ModelState × Bool :=
  match f with
  | .fitError => (st, false)
  | .fitted name =>
    match name with
    | some s =>
      if s = "" then (st, false)
      else
        ({ st with
            best_model_name := some (s ++ " (fallback)")
            training_successful := true }, true)
    | none => (st, false)

/-- `_train_simple_fallback` when called with already-prepared data
(`value_column=None`): `ts_data` is used as given. -/
def trainSimpleFallback (st : ModelState) (ts : Option Series) (f : FitOutcome) :
    ModelState × Bool :=
  match ts with
  | none => (st, false)
  | some _ => trainSimpleFallbackCore st f

/-- `UniversalForecastModel.train`.  `p` is the primary-tier oracle (a
function of the model list and effort profile passed to `AutoTS`), `f` the
fallback-tier oracle.  A primary exception re-prepares the raw data before
the fallback fit (lines 148-151 pass the raw frame and column); a primary
result whose best model is missing, empty or `ZeroesNaive` goes to the
fallback with the already-prepared data (line 146). -/
def train (st : ModelState) (raw : Series) (p : String → ℕ → ℕ → FitOutcome)
    (f : FitOutcome) : ModelState × Bool :=
  match prepare_data st raw with
  | (st1, none) => (st1, false)
  | (st1, some ts) =>
    let modelList := getModelList st1.model_complexity ts.length
    let effort := trainingEffort ts.length
    match p modelList effort.1 effort.2 with
    | .fitError =>
      let pr := prepare_data st1 raw
      trainSimpleFallback pr.1 pr.2 f
    | .fitted name =>
      match name with
      | some s =>
        if s ≠ "" ∧ s ≠ "ZeroesNaive" then
          ({ st1 with best_model_name := some s, training_successful := true }, true)
        else trainSimpleFallback st1 (some ts) f
      | none => trainSimpleFallback st1 (some ts) f

/-- `UniversalForecastModel.predict`.  `libForecast` is the oracle for the
trained library model's own forecast (`none` models a missing `predict`
attribute, a `None`/attribute-less result, or an exception — all of which
fall back to the trend forecast). -/
def predict (st : ModelState) (libForecast : Option Series) : Option Series :=
  if st.training_successful then
    match libForecast with
    | some fcast => some fcast
    | none => simpleTrendForecast st
  else simpleTrendForecast st

/-- `create_forecast` (lines 295-313). -/
def create_forecast (raw : Series) (forecast_months : ℕ) (model_complexity : String)
    (frequency : Freq) (p : String → ℕ → ℕ → FitOutcome) (f : FitOutcome)
    (libForecast : Option Series) : Option Series × ModelState × Bool :=
  let st0 := initState forecast_months frequency model_complexity
  let tr := train st0 raw p f
  if tr.2 then
    (predict tr.1 libForecast, tr.1, true)
  else
    let fc := simpleTrendForecast tr.1
    (fc, tr.1, fc.isSome)

/-! ### Helper lemmas -/

theorem length_interpolate (vs : List (Option ℚ)) :
    (interpolate vs).length = vs.length := by
  simp [interpolate]

theorem length_dateRangeME (s : Date) (n : ℕ) : (dateRangeME s n).length = n := by
  simp [dateRangeME]

theorem length_forecastDates (freq : Freq) (last : Date) (n : ℕ) :
    (forecastDates freq last n).length = n := by
  cases freq <;> simp [forecastDates, length_dateRangeME]

theorem sortDedup_length (raw : Series) :
    (sortDedup raw).length = (dedupFirst raw).length :=
  (List.perm_insertionSort leDate (dedupFirst raw)).length_eq

theorem prepare_data_of_short {raw : Series} (st : ModelState)
    (h : (sortDedup raw).length < 6) : prepare_data st raw = (st, none) := by
  simp [prepare_data, h]

theorem prepare_data_of_long {raw : Series} (st : ModelState)
    (h : 6 ≤ (sortDedup raw).length) :
    prepare_data st raw =
      ({ st with historical_data := some (sortDedup raw) },
        some (if (List.map Prod.snd (sortDedup raw)).any (fun ov => ov.isNone) then
          (List.map Prod.fst (sortDedup raw)).zip
            (interpolate (List.map Prod.snd (sortDedup raw)))
        else sortDedup raw)) := by
  simp [prepare_data, Nat.not_lt.mpr h]

theorem prepare_data_isSome_iff (st : ModelState) (raw : Series) :
    ((prepare_data st raw).2).isSome = true ↔ 6 ≤ (sortDedup raw).length := by
  by_cases h : 6 ≤ (sortDedup raw).length
  · simp [prepare_data_of_long st h, h]
  · simp [prepare_data_of_short st (Nat.not_le.mp h), h]

theorem trainSimpleFallbackCore_shape (st : ModelState) (f : FitOutcome) :
    trainSimpleFallbackCore st f = (st, false) ∨
      ∃ s : String, s ≠ "" ∧
        trainSimpleFallbackCore st f =
          ({ st with best_model_name := some (s ++ " (fallback)")
                     training_successful := true }, true) := by
  cases f with
  | fitError => exact Or.inl rfl
  | fitted name =>
    cases name with
    | none => exact Or.inl rfl
    | some s =>
      by_cases hs : s = ""
      · exact Or.inl (by simp [trainSimpleFallbackCore, hs])
      · exact Or.inr ⟨s, hs, by simp [trainSimpleFallbackCore, hs]⟩

/-- Whatever the two fit oracles do, `train` on a preparable series returns
the post-preparation state with at most `best_model_name` and
`training_successful` changed: in particular `historical_data` holds the
deduplicated sorted series and the forecast parameters are untouched. -/
theorem train_shape (st : ModelState) (raw : Series)
    (p : String → ℕ → ℕ → FitOutcome) (f : FitOutcome)
    (h6 : 6 ≤ (sortDedup raw).length) :
    ∃ bm ts2 r, train st raw p f =
      ({ st with historical_data := some (sortDedup raw)
                 best_model_name := bm
                 training_successful := ts2 }, r) := by
  have hp := prepare_data_of_long st h6
  rw [train, hp]
  dsimp only
  set st1 : ModelState := { st with historical_data := some (sortDedup raw) } with hst1
  have hcore : ∀ g : FitOutcome, ∃ bm ts2 r,
      trainSimpleFallbackCore st1 g =
        ({ st with historical_data := some (sortDedup raw)
                   best_model_name := bm
                   training_successful := ts2 }, r) := by
    intro g
    rcases trainSimpleFallbackCore_shape st1 g with h | ⟨s, _, h⟩
    · exact ⟨st.best_model_name, st.training_successful, false, by rw [h]⟩
    · exact ⟨some (s ++ " (fallback)"), true, true, by rw [h]⟩
  rcases p (getModelList st1.model_complexity _) (trainingEffort _).1
      (trainingEffort _).2 with _ | name
  · dsimp only
    rw [prepare_data_of_long st1 h6]
    dsimp only [trainSimpleFallback]
    exact hcore f
  · cases name with
    | none => dsimp only [trainSimpleFallback]; exact hcore f
    | some s =>
      dsimp only [trainSimpleFallback]
      by_cases hcond : s ≠ "" ∧ s ≠ "ZeroesNaive"
      · rw [if_pos hcond]
        exact ⟨some s, true, true, rfl⟩
      · rw [if_neg hcond]
        exact hcore f

/-- On a nonempty historical series the trend tier always yields a forecast
frame of exactly the configured horizon length. -/
theorem simpleTrendForecast_length (st : ModelState) (base : Series)
    (hb : st.historical_data = some base) (h1 : 1 ≤ base.length) :
    ∃ df, simpleTrendForecast st = some df ∧ df.length = st.forecast_length := by
  have hne : base ≠ [] := List.ne_nil_of_length_pos h1
  have hlast : base.getLast?.isSome := List.getLast?_isSome.mpr hne
  obtain ⟨lastPt, hlp⟩ := Option.isSome_iff_exists.mp hlast
  rw [simpleTrendForecast, hb]
  simp only [hlp]
  by_cases h2 : (base.map Prod.snd).length < 2
  · have hvne : (base.map Prod.snd) ≠ [] := by
      simpa using List.ne_nil_of_length_pos (by simpa using h1)
    obtain ⟨lv, hlv⟩ := Option.isSome_iff_exists.mp (List.getLast?_isSome.mpr hvne)
    simp only [h2, if_true, hlv]
    refine ⟨_, rfl, ?_⟩
    rw [List.length_zip, length_forecastDates, List.length_replicate, min_self]
  · simp only [h2, if_false]
    refine ⟨_, rfl, ?_⟩
    rw [List.length_zip, length_forecastDates, List.length_map, List.length_range, min_self]

/-! ### Claim C1 -/

/-- C1: for every input series on which data preparation succeeds, if both
the primary and the fallback training tier fail (`train` returns `False`),
`create_forecast` still returns a forecast series of length exactly the
requested horizon, it reports success, and the forecast is the one produced
by the trend-extrapolation tier. -/
theorem c1_degraded_forecast_length (raw : Series) (fl : ℕ) (tier : String)
    (freq : Freq) (p : String → ℕ → ℕ → FitOutcome) (f : FitOutcome)
    (lib : Option Series)
    (hprep : ((prepare_data (initState fl freq tier) raw).2).isSome = true)
    (hfail : (train (initState fl freq tier) raw p f).2 = false) :
    ∃ df, (create_forecast raw fl tier freq p f lib).1 = some df ∧
      df.length = fl ∧
      (create_forecast raw fl tier freq p f lib).2.2 = true ∧
      (create_forecast raw fl tier freq p f lib).1 =
        simpleTrendForecast (train (initState fl freq tier) raw p f).1 := by
  have h6 : 6 ≤ (sortDedup raw).length :=
    (prepare_data_isSome_iff (initState fl freq tier) raw).mp hprep
  obtain ⟨bm, ts2, r, htr⟩ := train_shape (initState fl freq tier) raw p f h6
  have hr : r = false := by rw [htr] at hfail; exact hfail
  subst hr
  obtain ⟨df, hdf, hlen⟩ :=
    simpleTrendForecast_length (train (initState fl freq tier) raw p f).1
      (sortDedup raw) (by rw [htr]) (by omega)
  have hflen : (train (initState fl freq tier) raw p f).1.forecast_length = fl := by
    rw [htr]; rfl
  have hcf : create_forecast raw fl tier freq p f lib =
      (simpleTrendForecast (train (initState fl freq tier) raw p f).1,
       (train (initState fl freq tier) raw p f).1,
       (simpleTrendForecast (train (initState fl freq tier) raw p f).1).isSome) := by
    rw [create_forecast]
    simp only [hfail, Bool.false_eq_true, if_false]
  rw [hcf, hdf]
  exact ⟨df, rfl, by rw [hlen, hflen], rfl, rfl⟩

/-- Witness for C1: six clean monthly points, a 3-month horizon, both fit
calls raising: the returned forecast is a 3-row trend extrapolation. -/
theorem c1_degraded_forecast_length_witness :
    ((prepare_data (initState 3 .ME "medium")
        [(⟨2024, 1, 1⟩, some 1), (⟨2024, 2, 1⟩, some 2), (⟨2024, 3, 1⟩, some 3),
         (⟨2024, 4, 1⟩, some 4), (⟨2024, 5, 1⟩, some 5), (⟨2024, 6, 1⟩, some 6)]).2).isSome
      = true ∧
    (train (initState 3 .ME "medium")
        [(⟨2024, 1, 1⟩, some 1), (⟨2024, 2, 1⟩, some 2), (⟨2024, 3, 1⟩, some 3),
         (⟨2024, 4, 1⟩, some 4), (⟨2024, 5, 1⟩, some 5), (⟨2024, 6, 1⟩, some 6)]
        (fun _ _ _ => .fitError) .fitError).2 = false ∧
    (∃ df, (create_forecast
        [(⟨2024, 1, 1⟩, some 1), (⟨2024, 2, 1⟩, some 2), (⟨2024, 3, 1⟩, some 3),
         (⟨2024, 4, 1⟩, some 4), (⟨2024, 5, 1⟩, some 5), (⟨2024, 6, 1⟩, some 6)]
        3 "medium" .ME (fun _ _ _ => .fitError) .fitError none).1 = some df ∧
      df.length = 3 ∧
      (create_forecast
        [(⟨2024, 1, 1⟩, some 1), (⟨2024, 2, 1⟩, some 2), (⟨2024, 3, 1⟩, some 3),
         (⟨2024, 4, 1⟩, some 4), (⟨2024, 5, 1⟩, some 5), (⟨2024, 6, 1⟩, some 6)]
        3 "medium" .ME (fun _ _ _ => .fitError) .fitError none).2.2 = true ∧
      (create_forecast
        [(⟨2024, 1, 1⟩, some 1), (⟨2024, 2, 1⟩, some 2), (⟨2024, 3, 1⟩, some 3),
         (⟨2024, 4, 1⟩, some 4), (⟨2024, 5, 1⟩, some 5), (⟨2024, 6, 1⟩, some 6)]
        3 "medium" .ME (fun _ _ _ => .fitError) .fitError none).1 =
        simpleTrendForecast (train (initState 3 .ME "medium")
          [(⟨2024, 1, 1⟩, some 1), (⟨2024, 2, 1⟩, some 2), (⟨2024, 3, 1⟩, some 3),
           (⟨2024, 4, 1⟩, some 4), (⟨2024, 5, 1⟩, some 5), (⟨2024, 6, 1⟩, some 6)]
          (fun _ _ _ => .fitError) .fitError).1) :=
  ⟨by decide, by decide,
    c1_degraded_forecast_length _ 3 "medium" .ME _ _ none (by decide) (by decide)⟩

/-! ### Claim C2 -/

/-- A primary tier whose best model is the ZeroesNaive baseline is not
accepted: `train` proceeds to the fallback fit on the prepared data. -/
theorem train_zeroesNaive_runs_fallback (st : ModelState) (raw : Series)
    (f : FitOutcome) (h6 : 6 ≤ (sortDedup raw).length) :
    train st raw (fun _ _ _ => .fitted (some "ZeroesNaive")) f =
      trainSimpleFallbackCore { st with historical_data := some (sortDedup raw) } f := by
  rw [train, prepare_data_of_long st h6]
  dsimp only [trainSimpleFallback]
  rw [if_neg (by simp)]

/-- C2: when the primary tier selects the degenerate ZeroesNaive baseline,
the run is treated as a failure and the fallback tier is executed; any
(truthy) best model the fallback produces is accepted with its name suffixed
by " (fallback)", and whenever such a run reports success at all the best
model name carries that suffix — it is never reported as a primary-tier
success. -/
theorem c2_zeroes_naive_reclassified (st : ModelState) (raw : Series)
    (f : FitOutcome) (hprep : ((prepare_data st raw).2).isSome = true) :
    (∀ s : String, s ≠ "" → f = .fitted (some s) →
      train st raw (fun _ _ _ => .fitted (some "ZeroesNaive")) f =
        ({ (prepare_data st raw).1 with
            best_model_name := some (s ++ " (fallback)")
            training_successful := true }, true)) ∧
    (∀ st2 : ModelState,
      train st raw (fun _ _ _ => .fitted (some "ZeroesNaive")) f = (st2, true) →
      ∃ s : String, st2.best_model_name = some (s ++ " (fallback)")) := by
  have h6 : 6 ≤ (sortDedup raw).length := (prepare_data_isSome_iff st raw).mp hprep
  have htr := train_zeroesNaive_runs_fallback st raw f h6
  have hst1 : (prepare_data st raw).1 = { st with historical_data := some (sortDedup raw) } := by
    rw [prepare_data_of_long st h6]
  constructor
  · intro s hs hf
    subst hf
    rw [htr, hst1, trainSimpleFallbackCore, if_neg hs]
  · intro st2 h2
    rw [htr] at h2
    rcases trainSimpleFallbackCore_shape
        { st with historical_data := some (sortDedup raw) } f with hsh | ⟨s, _, hsh⟩
    · rw [hsh] at h2
      injection h2 with _ h4
      exact absurd h4 (by simp)
    · rw [hsh] at h2
      injection h2 with h3 _
      exact ⟨s, by rw [← h3]⟩

/-- Witness for C2: six clean rows, primary best model ZeroesNaive, fallback
best model ETS: training succeeds with the suffixed fallback name. -/
theorem c2_zeroes_naive_reclassified_witness :
    ((prepare_data (initState 3 .ME "medium")
        [(⟨2024, 1, 1⟩, some 10), (⟨2024, 2, 1⟩, some 20), (⟨2024, 3, 1⟩, some 30),
         (⟨2024, 4, 1⟩, some 40), (⟨2024, 5, 1⟩, some 50), (⟨2024, 6, 1⟩, some 60)]).2).isSome
      = true ∧
    train (initState 3 .ME "medium")
        [(⟨2024, 1, 1⟩, some 10), (⟨2024, 2, 1⟩, some 20), (⟨2024, 3, 1⟩, some 30),
         (⟨2024, 4, 1⟩, some 40), (⟨2024, 5, 1⟩, some 50), (⟨2024, 6, 1⟩, some 60)]
        (fun _ _ _ => .fitted (some "ZeroesNaive")) (.fitted (some "ETS")) =
      ({ (prepare_data (initState 3 .ME "medium")
          [(⟨2024, 1, 1⟩, some 10), (⟨2024, 2, 1⟩, some 20), (⟨2024, 3, 1⟩, some 30),
           (⟨2024, 4, 1⟩, some 40), (⟨2024, 5, 1⟩, some 50), (⟨2024, 6, 1⟩, some 60)]).1 with
          best_model_name := some ("ETS" ++ " (fallback)")
          training_successful := true }, true) :=
  ⟨by decide,
    (c2_zeroes_naive_reclassified (initState 3 .ME "medium")
      [(⟨2024, 1, 1⟩, some 10), (⟨2024, 2, 1⟩, some 20), (⟨2024, 3, 1⟩, some 30),
       (⟨2024, 4, 1⟩, some 40), (⟨2024, 5, 1⟩, some 50), (⟨2024, 6, 1⟩, some 60)]
      (.fitted (some "ETS")) (by decide)).1 "ETS" (by decide) rfl⟩

/-! ### Claim C4 -/

/-- C4: a raw series whose length after timestamp deduplication is below 6
is rejected by `prepare_data` (which returns `None` and leaves the model
state untouched), and `train` returns `False` without consulting either
training tier: for every pair of fit oracles the result is the same
unchanged state. -/
theorem c4_insufficient_data_rejected (st : ModelState) (raw : Series)
    (p : String → ℕ → ℕ → FitOutcome) (f : FitOutcome)
    (h : (dedupFirst raw).length < 6) :
    prepare_data st raw = (st, none) ∧ train st raw p f = (st, false) := by
  have h6 : (sortDedup raw).length < 6 := by rw [sortDedup_length]; exact h
  have hp := prepare_data_of_short st h6
  exact ⟨hp, by rw [train, hp]⟩

/-- Witness for C4: four rows (one a duplicate timestamp, so three after
dedup) are rejected even when both oracles would report a fitted model. -/
theorem c4_insufficient_data_rejected_witness :
    ((dedupFirst [(⟨2024, 1, 1⟩, some 10), (⟨2024, 2, 1⟩, some 20),
        (⟨2024, 2, 1⟩, some 21), (⟨2024, 3, 1⟩, some 30)]).length < 6) ∧
    (prepare_data (initState 12 .ME "medium")
        [(⟨2024, 1, 1⟩, some 10), (⟨2024, 2, 1⟩, some 20),
         (⟨2024, 2, 1⟩, some 21), (⟨2024, 3, 1⟩, some 30)]
      = (initState 12 .ME "medium", none) ∧
     train (initState 12 .ME "medium")
        [(⟨2024, 1, 1⟩, some 10), (⟨2024, 2, 1⟩, some 20),
         (⟨2024, 2, 1⟩, some 21), (⟨2024, 3, 1⟩, some 30)]
        (fun _ _ _ => .fitted (some "ARIMA")) (.fitted (some "ETS"))
      = (initState 12 .ME "medium", false)) :=
  ⟨by decide, c4_insufficient_data_rejected _ _ _ _ (by decide)⟩

/-! ### Claim C5 -/

/-- C5: model selection is a pure function of the complexity tier and the
data length: the tier fixes the candidate set (simple to superfast, medium
to fast, complex to default, all to all), the length fixes the effort
profile ((1,1) up to 12 points, (2,2) up to 24, (3,3) beyond), and
generations and validation folds strictly increase across the thresholds 12
and 24. -/
theorem c5_selection_is_pure_profile : ∀ n : ℕ,
    getModelList "simple" n = "superfast" ∧
    getModelList "medium" n = "fast" ∧
    getModelList "complex" n = "default" ∧
    getModelList "all" n = "all" ∧
    (n ≤ 12 → trainingEffort n = (1, 1)) ∧
    (12 < n → n ≤ 24 → trainingEffort n = (2, 2)) ∧
    (24 < n → trainingEffort n = (3, 3)) ∧
    (trainingEffort 12).1 < (trainingEffort 13).1 ∧
    (trainingEffort 12).2 < (trainingEffort 13).2 ∧
    (trainingEffort 24).1 < (trainingEffort 25).1 ∧
    (trainingEffort 24).2 < (trainingEffort 25).2 := by
  intro n
  refine ⟨by simp [getModelList], by simp [getModelList], by simp [getModelList],
    by simp [getModelList], ?_, ?_, ?_,
    by decide, by decide, by decide, by decide⟩
  · intro h; rw [trainingEffort, if_pos h]
  · intro h1 h2
    rw [trainingEffort, if_neg (by omega), if_pos h2]
  · intro h
    rw [trainingEffort, if_neg (by omega), if_neg (by omega)]

/-- Witness for C5 at the three length regimes (10, 13 and 30 points). -/
theorem c5_selection_is_pure_profile_witness :
    getModelList "simple" 13 = "superfast" ∧
    trainingEffort 10 = (1, 1) ∧ trainingEffort 13 = (2, 2) ∧
    trainingEffort 30 = (3, 3) :=
  ⟨(c5_selection_is_pure_profile 13).1,
   (c5_selection_is_pure_profile 10).2.2.2.2.1 (by decide),
   (c5_selection_is_pure_profile 13).2.2.2.2.2.1 (by decide) (by decide),
   (c5_selection_is_pure_profile 30).2.2.2.2.2.2.1 (by decide)⟩

/-! ### Claim C6 -/

theorem one_le_daysInMonth (y m : ℕ) : 1 ≤ daysInMonth y m := by
  unfold daysInMonth
  split
  · split <;> decide
  · split <;> decide

theorem ymAddMonths_add (y m a b : ℕ) :
    ymAddMonths (ymAddMonths y m a).1 (ymAddMonths y m a).2 b =
      ymAddMonths y m (a + b) := by
  unfold ymAddMonths
  dsimp only
  have h : (y * 12 + (m - 1) + a) / 12 * 12 + ((y * 12 + (m - 1) + a) % 12 + 1 - 1) + b
      = y * 12 + (m - 1) + (a + b) := by omega
  rw [h]

/-- Amended C6: for frequency ME the k-th future timestamp of the
trend-extrapolation forecast is the *last day* of the calendar month k+1
months after the month of the last historical timestamp (month-end anchored
dates, one calendar month between consecutive entries) — not, in general,
one month after the last historical timestamp itself. -/
theorem c6_me_dates_are_month_ends (last : Date) (n k : ℕ) (hk : k < n) :
    (forecastDates .ME last n).get? k =
      some (monthEnd (ymAddMonths last.y last.m (k + 1)).1
        (ymAddMonths last.y last.m (k + 1)).2) := by
  rw [forecastDates, dateRangeME]
  dsimp only [nextMonthStart]
  rw [if_pos (one_le_daysInMonth _ _)]
  rw [List.get?_map, List.get?_range hk]
  simp only [Option.map_some']
  rw [ymAddMonths_add last.y last.m 1 k, Nat.add_comm 1 k]

/-- Witness for C6 (amended): the second forecast date after a series ending
2024-01-15 is the end of March 2024. -/
theorem c6_me_dates_are_month_ends_witness :
    1 < 2 ∧
    (forecastDates .ME ⟨2024, 1, 15⟩ 2).get? 1 =
      some (monthEnd (ymAddMonths 2024 1 2).1 (ymAddMonths 2024 1 2).2) :=
  ⟨by decide, c6_me_dates_are_month_ends ⟨2024, 1, 15⟩ 2 1 (by decide)⟩

/-- Modelled from the spec's words, for comparison in claim C6 only: the
date "exactly one calendar month after" a given date — advance the month by
one and clamp the day to the target month's length (the pandas
DateOffset(months=1) convention). -/
def specOneCalendarMonthLater (dt : Date) : Date :=
  let ym := ymAddMonths dt.y dt.m 1
  ⟨ym.1, ym.2, min dt.d (daysInMonth ym.1 ym.2)⟩

/-- Counterexample to C6 as stated: for a series whose last historical
timestamp is 2024-01-15, the first generated future timestamp is 2024-02-29
(a month end), not 2024-02-15 (one calendar month after the last
timestamp), and the gap from 2024-02-29 to 2024-03-31 is not one calendar
month after 2024-02-29 under the same convention either. -/
theorem c6_me_dates_counterexample :
    (∃ df, simpleTrendForecast
        { initState 2 .ME "medium" with
            historical_data := some [(⟨2024, 1, 15⟩, some 5)] } = some df ∧
      df.map Prod.fst = [⟨2024, 2, 29⟩, ⟨2024, 3, 31⟩]) ∧
    specOneCalendarMonthLater ⟨2024, 1, 15⟩ = ⟨2024, 2, 15⟩ ∧
    (⟨2024, 2, 29⟩ : Date) ≠ ⟨2024, 2, 15⟩ ∧
    specOneCalendarMonthLater ⟨2024, 2, 29⟩ = ⟨2024, 3, 29⟩ ∧
    (⟨2024, 3, 31⟩ : Date) ≠ ⟨2024, 3, 29⟩ :=
  ⟨⟨_, rfl, by decide⟩, by decide, by decide, by decide, by decide⟩

/-! ### Claim C7 -/

/-- Amended C7: on a single-point historical series the trend tier returns a
flat forecast repeating that point's value exactly horizon-many times, but
on an *empty* historical series it returns no forecast at all (`values[-1]`
raises, the exception handler yields `None`). -/
theorem c7_short_history_flat (st : ModelState) :
    (∀ (dt : Date) (v : Option ℚ), st.historical_data = some [(dt, v)] →
      ∃ df, simpleTrendForecast st = some df ∧
        df.length = st.forecast_length ∧
        df.map Prod.snd = List.replicate st.forecast_length v ∧
        df.map Prod.fst = forecastDates st.frequency dt st.forecast_length) ∧
    (st.historical_data = some [] → simpleTrendForecast st = none) := by
  constructor
  · intro dt v hh
    rw [simpleTrendForecast, hh]
    simp only [List.map_cons, List.map_nil, List.getLast?_singleton,
      List.length_singleton, Nat.one_lt_two, if_true]
    refine ⟨_, rfl, ?_, ?_, ?_⟩
    · rw [List.length_zip, length_forecastDates, List.length_replicate, min_self]
    · exact List.map_snd_zip _ _ (by rw [length_forecastDates, List.length_replicate])
    · exact List.map_fst_zip _ _ (by rw [length_forecastDates, List.length_replicate])
  · intro hh
    rw [simpleTrendForecast, hh]
    rfl

/-- Witness for C7 (amended): a single point of value 5000 and horizon 4
yields four repetitions of 5000. -/
theorem c7_short_history_flat_witness :
    ∃ df, simpleTrendForecast
        { initState 4 .ME "medium" with
            historical_data := some [(⟨2024, 1, 31⟩, some 5000)] } = some df ∧
      df.length = 4 ∧
      df.map Prod.snd = List.replicate 4 (some (5000 : ℚ)) ∧
      df.map Prod.fst = forecastDates .ME ⟨2024, 1, 31⟩ 4 :=
  (c7_short_history_flat
    { initState 4 .ME "medium" with
        historical_data := some [(⟨2024, 1, 31⟩, some 5000)] }).1
    ⟨2024, 1, 31⟩ (some 5000) rfl

/-- Counterexample to C7 as stated: with an empty historical series (zero
points, hence fewer than 2) the trend tier does not return a flat
horizon-length series — it returns nothing. -/
theorem c7_empty_history_counterexample :
    simpleTrendForecast
        { initState 3 .ME "medium" with historical_data := some [] } = none ∧
    ∀ df : Series, simpleTrendForecast
        { initState 3 .ME "medium" with historical_data := some [] } ≠ some df := by
  have h0 : simpleTrendForecast
      { initState 3 .ME "medium" with historical_data := some [] } = none := rfl
  refine ⟨h0, ?_⟩
  intro df h
  rw [h0] at h
  exact Option.noConfusion h

/-! ### Claim C3: helper lemmas -/

theorem dedupFirstAux_mem :
    ∀ (l : Series) (seen : List Date) (x : Date × Option ℚ),
      x ∈ dedupFirstAux seen l → x ∈ l ∧ x.1 ∉ seen := by
  intro l
  induction l with
  | nil => intro seen x hx; simp [dedupFirstAux] at hx
  | cons p rest ih =>
    intro seen x hx
    rw [dedupFirstAux] at hx
    by_cases hp : p.1 ∈ seen
    · rw [if_pos hp] at hx
      obtain ⟨h1, h2⟩ := ih seen x hx
      exact ⟨List.mem_cons_of_mem p h1, h2⟩
    · rw [if_neg hp] at hx
      rcases List.mem_cons.mp hx with rfl | hx2
      · exact ⟨List.mem_cons_self _ _, hp⟩
      · obtain ⟨h1, h2⟩ := ih _ x hx2
        exact ⟨List.mem_cons_of_mem p h1, fun hc => h2 (List.mem_cons_of_mem _ hc)⟩

theorem nodup_map_fst_dedupFirstAux :
    ∀ (l : Series) (seen : List Date),
      ((dedupFirstAux seen l).map Prod.fst).Nodup := by
  intro l
  induction l with
  | nil => intro seen; simp [dedupFirstAux]
  | cons p rest ih =>
    intro seen
    rw [dedupFirstAux]
    by_cases hp : p.1 ∈ seen
    · rw [if_pos hp]; exact ih seen
    · rw [if_neg hp, List.map_cons, List.nodup_cons]
      refine ⟨?_, ih _⟩
      intro hc
      obtain ⟨x, hx, hxe⟩ := List.mem_map.mp hc
      have h2 := (dedupFirstAux_mem rest (p.1 :: seen) x hx).2
      apply h2
      rw [hxe]
      exact List.mem_cons_self _ _

/-- The prepared series (before interpolation) is sorted ascending on the
chronological key. -/
theorem sortDedup_key_sorted (raw : Series) :
    ((sortDedup raw).map (fun p => p.1.key)).Sorted (· ≤ ·) := by
  have h := List.sorted_insertionSort leDate (dedupFirst raw)
  show ((sortDedup raw).map (fun p => p.1.key)).Pairwise (· ≤ ·)
  rw [List.pairwise_map]
  exact h

/-- The prepared series (before interpolation) has no duplicate
timestamps. -/
theorem nodup_map_fst_sortDedup (raw : Series) :
    ((sortDedup raw).map Prod.fst).Nodup := by
  have hperm : List.Perm (sortDedup raw) (dedupFirst raw) :=
    List.perm_insertionSort leDate _
  exact ((hperm.map Prod.fst).nodup_iff).mpr (nodup_map_fst_dedupFirstAux raw [])

theorem prevValid_eq_none_iff (vs : List (Option ℚ)) :
    ∀ i : ℕ, (prevValid vs i = none ↔
      ∀ j ≤ i, ∀ v : ℚ, vs.get? j ≠ some (some v)) := by
  intro i
  induction i with
  | zero =>
    rw [prevValid]
    cases h0 : vs.get? 0 with
    | none =>
      simp only [h0]
      constructor
      · intro _ j hj v
        rw [Nat.le_zero] at hj
        subst hj
        rw [h0]
        exact fun hc => Option.noConfusion hc
      · intro _; trivial
    | some ov =>
      cases ov with
      | none =>
        simp only [h0]
        constructor
        · intro _ j hj v
          rw [Nat.le_zero] at hj
          subst hj
          rw [h0]
          intro hc
          exact Option.noConfusion (Option.some_injective _ hc)
        · intro _; trivial
      | some v =>
        simp only [h0]
        constructor
        · intro hc; exact Option.noConfusion hc
        · intro h; exact absurd h0 (h 0 le_rfl v)
  | succ i ih =>
    rw [prevValid]
    cases hs : vs.get? (i + 1) with
    | none =>
      simp only [hs]
      constructor
      · intro h j hj v
        by_cases hj2 : j ≤ i
        · exact ih.mp h j hj2 v
        · have : j = i + 1 := by omega
          subst this
          rw [hs]
          exact fun hc => Option.noConfusion hc
      · intro h
        exact ih.mpr (fun j hj v => h j (le_trans hj (Nat.le_succ i)) v)
    | some ov =>
      cases ov with
      | none =>
        simp only [hs]
        constructor
        · intro h j hj v
          by_cases hj2 : j ≤ i
          · exact ih.mp h j hj2 v
          · have : j = i + 1 := by omega
            subst this
            rw [hs]
            intro hc
            exact Option.noConfusion (Option.some_injective _ hc)
        · intro h
          exact ih.mpr (fun j hj v => h j (le_trans hj (Nat.le_succ i)) v)
      | some v =>
        simp only [hs]
        constructor
        · intro hc; exact Option.noConfusion hc
        · intro h; exact absurd hs (h (i + 1) le_rfl v)

theorem prevValid_none_mono (vs : List (Option ℚ)) {i j : ℕ} (hj : j ≤ i)
    (h : prevValid vs i = none) : prevValid vs j = none :=
  (prevValid_eq_none_iff vs j).mpr
    (fun k hk v => (prevValid_eq_none_iff vs i).mp h k (le_trans hk hj) v)

theorem interpAt_none_char (vs : List (Option ℚ)) (i : ℕ) (hi : i < vs.length)
    (h : interpAt vs i = none) :
    vs.get? i = some none ∧ prevValid vs i = none := by
  rw [interpAt] at h
  cases hg : vs.get? i with
  | none =>
    rw [List.get?_eq_none] at hg
    omega
  | some ov =>
    rw [hg] at h
    cases ov with
    | some v => exact absurd h (by simp)
    | none =>
      refine ⟨rfl, ?_⟩
      cases hp : prevValid vs i with
      | none => rfl
      | some pv =>
        rw [hp] at h
        cases hn : nextValid vs i with
        | some nv => rw [hn] at h; exact absurd h (by simp)
        | none => rw [hn] at h; exact absurd h (by simp)

/-- A null surviving interpolation is a leading null: every position up to
it is null both before and after interpolation. -/
theorem interpAt_none_prefix {vs : List (Option ℚ)} {i : ℕ} (hi : i < vs.length)
    (h : interpAt vs i = none) :
    ∀ j ≤ i, interpAt vs j = none ∧ vs.get? j = some none := by
  obtain ⟨hg, hp⟩ := interpAt_none_char vs i hi h
  intro j hj
  have hpj : prevValid vs j = none := prevValid_none_mono vs hj hp
  have hgj : vs.get? j = some none := by
    cases hgj : vs.get? j with
    | none =>
      rw [List.get?_eq_none] at hgj
      omega
    | some ov =>
      cases ov with
      | some v => exact absurd hgj ((prevValid_eq_none_iff vs i).mp hp j hj v)
      | none => rfl
  refine ⟨?_, hgj⟩
  rw [interpAt, hgj, hpj]

/-- Amended C3: for every raw series accepted by `prepare_data` the returned
prepared series is sorted ascending by timestamp and has no duplicate
timestamps; interior nulls are filled by linear interpolation between the
nearest observed values (positionally, treating rows as equally spaced) and
trailing nulls with the last observed value, but *leading* nulls survive:
any null in the result is part of a null prefix. -/
theorem c3_prepare_sorted_nodup_nulls (st : ModelState) (raw ts : Series)
    (hp : (prepare_data st raw).2 = some ts) :
    ((ts.map (fun p => p.1.key)).Sorted (· ≤ ·)) ∧
    (ts.map Prod.fst).Nodup ∧
    (∀ i : ℕ, ∀ dt : Date, ts.get? i = some (dt, (none : Option ℚ)) →
      ∀ j : ℕ, j ≤ i → ∃ dt2 : Date, ts.get? j = some (dt2, (none : Option ℚ))) := by
  have hsome : ((prepare_data st raw).2).isSome = true := by rw [hp]; rfl
  have h6 := (prepare_data_isSome_iff st raw).mp hsome
  have hlong := prepare_data_of_long st h6
  rw [hlong] at hp
  dsimp only at hp
  have hts := Option.some_injective _ hp
  by_cases hnull : ((sortDedup raw).map Prod.snd).any (fun ov => ov.isNone) = true
  · rw [if_pos hnull] at hts
    subst hts
    have hleni : (interpolate ((sortDedup raw).map Prod.snd)).length
        = (sortDedup raw).length := by
      rw [length_interpolate, List.length_map]
    have hmapfst : (((sortDedup raw).map Prod.fst).zip
          (interpolate ((sortDedup raw).map Prod.snd))).map Prod.fst
        = (sortDedup raw).map Prod.fst :=
      List.map_fst_zip _ _ (by rw [hleni, List.length_map])
    have hkeys : ∀ l : Series,
        l.map (fun p => p.1.key) = (l.map Prod.fst).map Date.key := by
      intro l; rw [List.map_map]; rfl
    refine ⟨?_, ?_, ?_⟩
    · rw [hkeys, hmapfst, ← hkeys]
      exact sortDedup_key_sorted raw
    · rw [hmapfst]
      exact nodup_map_fst_sortDedup raw
    · intro i dt hget j hj
      obtain ⟨hgf, hgs⟩ := (List.get?_zip_eq_some _ _ _ _).mp hget
      have hilen : i < ((sortDedup raw).map Prod.snd).length := by
        by_contra hcon
        have hle : (interpolate ((sortDedup raw).map Prod.snd)).length ≤ i := by
          rw [length_interpolate]; omega
        rw [List.get?_eq_none.mpr hle] at hgs
        exact Option.noConfusion hgs
      have hIA : interpAt ((sortDedup raw).map Prod.snd) i = none := by
        rw [interpolate, List.get?_map, List.get?_range hilen,
          Option.map_some'] at hgs
        exact Option.some_injective _ hgs
      obtain ⟨hIAj, _⟩ := interpAt_none_prefix hilen hIA j hj
      have hjlen : j < ((sortDedup raw).map Prod.snd).length := lt_of_le_of_lt hj hilen
      obtain ⟨dt2, hdt2⟩ : ∃ dt2, ((sortDedup raw).map Prod.fst).get? j = some dt2 := by
        cases hg2 : ((sortDedup raw).map Prod.fst).get? j with
        | none =>
          rw [List.get?_eq_none] at hg2
          rw [List.length_map] at hg2 hjlen
          omega
        | some x => exact ⟨x, rfl⟩
      refine ⟨dt2, (List.get?_zip_eq_some _ _ _ _).mpr ⟨hdt2, ?_⟩⟩
      rw [interpolate, List.get?_map, List.get?_range hjlen, Option.map_some', hIAj]
  · rw [if_neg hnull] at hts
    subst hts
    refine ⟨sortDedup_key_sorted raw, nodup_map_fst_sortDedup raw, ?_⟩
    intro i dt hget j hj
    exfalso
    have hmem : (dt, (none : Option ℚ)) ∈ sortDedup raw := List.get?_mem hget
    have hmem2 : (none : Option ℚ) ∈ (sortDedup raw).map Prod.snd :=
      List.mem_map.mpr ⟨_, hmem, rfl⟩
    have hfalse : ((sortDedup raw).map Prod.snd).any (fun ov => ov.isNone) = false :=
      Bool.eq_false_iff.mpr hnull
    exact absurd (List.any_eq_false.mp hfalse _ hmem2) (by simp)

/-- Witness for C3 (amended): an unsorted input with one duplicate
timestamp, a leading null and an interior null; the prepared series is the
sorted deduplicated list with the interior null filled. -/
theorem c3_prepare_sorted_nodup_nulls_witness :
    (prepare_data (initState 3 .ME "medium")
        [(⟨2024, 2, 1⟩, none), (⟨2024, 1, 1⟩, none), (⟨2024, 3, 1⟩, some 3),
         (⟨2024, 1, 1⟩, some 99), (⟨2024, 5, 1⟩, some 5), (⟨2024, 4, 1⟩, some 4),
         (⟨2024, 6, 1⟩, some 6)]).2 =
      some [(⟨2024, 1, 1⟩, none), (⟨2024, 2, 1⟩, none), (⟨2024, 3, 1⟩, some 3),
         (⟨2024, 4, 1⟩, some 4), (⟨2024, 5, 1⟩, some 5), (⟨2024, 6, 1⟩, some 6)] ∧
    ((([(⟨2024, 1, 1⟩, none), (⟨2024, 2, 1⟩, none), (⟨2024, 3, 1⟩, some 3),
         (⟨2024, 4, 1⟩, some 4), (⟨2024, 5, 1⟩, some 5), (⟨2024, 6, 1⟩, some 6)] :
        Series).map (fun p => p.1.key)).Sorted (· ≤ ·) ∧
     (([(⟨2024, 1, 1⟩, none), (⟨2024, 2, 1⟩, none), (⟨2024, 3, 1⟩, some 3),
         (⟨2024, 4, 1⟩, some 4), (⟨2024, 5, 1⟩, some 5), (⟨2024, 6, 1⟩, some 6)] :
        Series).map Prod.fst).Nodup ∧
     (∀ i : ℕ, ∀ dt : Date,
       ([(⟨2024, 1, 1⟩, none), (⟨2024, 2, 1⟩, none), (⟨2024, 3, 1⟩, some 3),
         (⟨2024, 4, 1⟩, some 4), (⟨2024, 5, 1⟩, some 5), (⟨2024, 6, 1⟩, some 6)] :
        Series).get? i = some (dt, (none : Option ℚ)) →
       ∀ j : ℕ, j ≤ i → ∃ dt2 : Date,
         ([(⟨2024, 1, 1⟩, none), (⟨2024, 2, 1⟩, none), (⟨2024, 3, 1⟩, some 3),
           (⟨2024, 4, 1⟩, some 4), (⟨2024, 5, 1⟩, some 5), (⟨2024, 6, 1⟩, some 6)] :
          Series).get? j = some (dt2, (none : Option ℚ)))) :=
  ⟨by decide,
    c3_prepare_sorted_nodup_nulls (initState 3 .ME "medium")
      [(⟨2024, 2, 1⟩, none), (⟨2024, 1, 1⟩, none), (⟨2024, 3, 1⟩, some 3),
       (⟨2024, 1, 1⟩, some 99), (⟨2024, 5, 1⟩, some 5), (⟨2024, 4, 1⟩, some 4),
       (⟨2024, 6, 1⟩, some 6)]
      [(⟨2024, 1, 1⟩, none), (⟨2024, 2, 1⟩, none), (⟨2024, 3, 1⟩, some 3),
       (⟨2024, 4, 1⟩, some 4), (⟨2024, 5, 1⟩, some 5), (⟨2024, 6, 1⟩, some 6)]
      (by decide)⟩

/-- Counterexample to C3 as stated: a six-point series with a leading null
is accepted by `prepare_data` but the returned prepared series still
contains that null (pandas `interpolate()` does not fill before the first
observation); and for unevenly spaced timestamps an interior null is filled
positionally (midpoint 17), not along the time index (which would give
4 + 26/27 here). -/
theorem c3_leading_null_counterexample :
    (dedupFirst [(⟨2024, 1, 1⟩, none), (⟨2024, 2, 1⟩, some 2), (⟨2024, 3, 1⟩, some 3),
        (⟨2024, 4, 1⟩, some 4), (⟨2024, 5, 1⟩, some 5), (⟨2024, 6, 1⟩, some 6)]).length
      = 6 ∧
    (prepare_data (initState 3 .ME "medium")
        [(⟨2024, 1, 1⟩, none), (⟨2024, 2, 1⟩, some 2), (⟨2024, 3, 1⟩, some 3),
         (⟨2024, 4, 1⟩, some 4), (⟨2024, 5, 1⟩, some 5), (⟨2024, 6, 1⟩, some 6)]).2 =
      some [(⟨2024, 1, 1⟩, none), (⟨2024, 2, 1⟩, some 2), (⟨2024, 3, 1⟩, some 3),
         (⟨2024, 4, 1⟩, some 4), (⟨2024, 5, 1⟩, some 5), (⟨2024, 6, 1⟩, some 6)] ∧
    (none : Option ℚ) ∈
      ([(⟨2024, 1, 1⟩, none), (⟨2024, 2, 1⟩, some 2), (⟨2024, 3, 1⟩, some 3),
        (⟨2024, 4, 1⟩, some 4), (⟨2024, 5, 1⟩, some 5), (⟨2024, 6, 1⟩, some 6)] :
       Series).map Prod.snd ∧
    (prepare_data (initState 3 .ME "medium")
        [(⟨2024, 1, 1⟩, some 1), (⟨2024, 1, 2⟩, some 2), (⟨2024, 1, 3⟩, some 3),
         (⟨2024, 1, 4⟩, some 4), (⟨2024, 1, 5⟩, none), (⟨2024, 1, 31⟩, some 30)]).2 =
      some [(⟨2024, 1, 1⟩, some 1), (⟨2024, 1, 2⟩, some 2), (⟨2024, 1, 3⟩, some 3),
         (⟨2024, 1, 4⟩, some 4), (⟨2024, 1, 5⟩, some 17), (⟨2024, 1, 31⟩, some 30)] ∧
    (17 : ℚ) ≠ 4 + 26 / 27 := by
  refine ⟨by decide, by decide, by decide, ?_, by norm_num⟩
  norm_num [prepare_data, sortDedup, dedupFirst, dedupFirstAux, leDate, Date.key,
    List.insertionSort, List.orderedInsert, interpolate, interpAt, prevValid, nextValid,
    List.range_succ, initState]

/-! ### Claim C9 -/

theorem any_isNone_eq_false {l : List (Option ℚ)}
    (h : (l.all fun ov => ov.isSome) = true) :
    (l.any fun ov => ov.isNone) = false := by
  rw [List.any_eq_false]
  intro x hx
  have hx2 := List.all_eq_true.mp h x hx
  cases x with
  | none => exact absurd hx2 (by simp)
  | some v => simp

/-- Amended C9: `prepare_data` retains in `historical_data` the
deduplicated, sorted series *before* null interpolation; whenever the series
has no nulls that retained copy equals the returned prepared series (with
nulls the two can differ, see the counterexample), and it is exactly what
the trend-extrapolation fallback consumes. -/
theorem c9_historical_is_preinterpolation (st : ModelState) (raw ts : Series)
    (hp : (prepare_data st raw).2 = some ts) :
    (prepare_data st raw).1 = { st with historical_data := some (sortDedup raw) } ∧
    (((sortDedup raw).map Prod.snd).all (fun ov => ov.isSome) = true →
      ts = sortDedup raw) ∧
    simpleTrendForecast (prepare_data st raw).1 =
      simpleTrendForecast { st with historical_data := some (sortDedup raw) } := by
  have hsome : ((prepare_data st raw).2).isSome = true := by rw [hp]; rfl
  have h6 := (prepare_data_isSome_iff st raw).mp hsome
  have hlong := prepare_data_of_long st h6
  refine ⟨by rw [hlong], ?_, by rw [hlong]⟩
  intro hall
  rw [hlong] at hp
  dsimp only at hp
  rw [any_isNone_eq_false hall, if_neg (by simp)] at hp
  exact (Option.some_injective _ hp).symm

/-- Witness for C9 (amended): six clean rows; the retained copy and the
returned prepared series coincide. -/
theorem c9_historical_is_preinterpolation_witness :
    (prepare_data (initState 3 .ME "medium")
        [(⟨2024, 1, 1⟩, some 1), (⟨2024, 2, 1⟩, some 2), (⟨2024, 3, 1⟩, some 3),
         (⟨2024, 4, 1⟩, some 4), (⟨2024, 5, 1⟩, some 5), (⟨2024, 6, 1⟩, some 6)]).2 =
      some [(⟨2024, 1, 1⟩, some 1), (⟨2024, 2, 1⟩, some 2), (⟨2024, 3, 1⟩, some 3),
         (⟨2024, 4, 1⟩, some 4), (⟨2024, 5, 1⟩, some 5), (⟨2024, 6, 1⟩, some 6)] ∧
    ((prepare_data (initState 3 .ME "medium")
        [(⟨2024, 1, 1⟩, some 1), (⟨2024, 2, 1⟩, some 2), (⟨2024, 3, 1⟩, some 3),
         (⟨2024, 4, 1⟩, some 4), (⟨2024, 5, 1⟩, some 5), (⟨2024, 6, 1⟩, some 6)]).1 =
      { initState 3 .ME "medium" with
          historical_data := some (sortDedup
            [(⟨2024, 1, 1⟩, some 1), (⟨2024, 2, 1⟩, some 2), (⟨2024, 3, 1⟩, some 3),
             (⟨2024, 4, 1⟩, some 4), (⟨2024, 5, 1⟩, some 5), (⟨2024, 6, 1⟩, some 6)]) } ∧
     (((sortDedup
            [(⟨2024, 1, 1⟩, some 1), (⟨2024, 2, 1⟩, some 2), (⟨2024, 3, 1⟩, some 3),
             (⟨2024, 4, 1⟩, some 4), (⟨2024, 5, 1⟩, some 5), (⟨2024, 6, 1⟩, some 6)]).map
          Prod.snd).all (fun ov => ov.isSome) = true →
        [(⟨2024, 1, 1⟩, some (1 : ℚ)), (⟨2024, 2, 1⟩, some 2), (⟨2024, 3, 1⟩, some 3),
         (⟨2024, 4, 1⟩, some 4), (⟨2024, 5, 1⟩, some 5), (⟨2024, 6, 1⟩, some 6)] =
          sortDedup
            [(⟨2024, 1, 1⟩, some 1), (⟨2024, 2, 1⟩, some 2), (⟨2024, 3, 1⟩, some 3),
             (⟨2024, 4, 1⟩, some 4), (⟨2024, 5, 1⟩, some 5), (⟨2024, 6, 1⟩, some 6)]) ∧
     simpleTrendForecast (prepare_data (initState 3 .ME "medium")
        [(⟨2024, 1, 1⟩, some 1), (⟨2024, 2, 1⟩, some 2), (⟨2024, 3, 1⟩, some 3),
         (⟨2024, 4, 1⟩, some 4), (⟨2024, 5, 1⟩, some 5), (⟨2024, 6, 1⟩, some 6)]).1 =
       simpleTrendForecast { initState 3 .ME "medium" with
          historical_data := some (sortDedup
            [(⟨2024, 1, 1⟩, some 1), (⟨2024, 2, 1⟩, some 2), (⟨2024, 3, 1⟩, some 3),
             (⟨2024, 4, 1⟩, some 4), (⟨2024, 5, 1⟩, some 5), (⟨2024, 6, 1⟩, some 6)]) }) :=
  ⟨by decide,
    c9_historical_is_preinterpolation (initState 3 .ME "medium")
      [(⟨2024, 1, 1⟩, some 1), (⟨2024, 2, 1⟩, some 2), (⟨2024, 3, 1⟩, some 3),
       (⟨2024, 4, 1⟩, some 4), (⟨2024, 5, 1⟩, some 5), (⟨2024, 6, 1⟩, some 6)]
      [(⟨2024, 1, 1⟩, some 1), (⟨2024, 2, 1⟩, some 2), (⟨2024, 3, 1⟩, some 3),
       (⟨2024, 4, 1⟩, some 4), (⟨2024, 5, 1⟩, some 5), (⟨2024, 6, 1⟩, some 6)]
      (by decide)⟩

/-- Counterexample to C9 as stated: with a null in the input, the retained
`historical_data` still contains the null while the returned prepared series
carries the interpolated value 3 — the retained copy is not equal to the
prepared series the call returns. -/
theorem c9_historical_differs_counterexample :
    (prepare_data (initState 3 .ME "medium")
        [(⟨2024, 1, 1⟩, some 1), (⟨2024, 2, 1⟩, some 2), (⟨2024, 3, 1⟩, none),
         (⟨2024, 4, 1⟩, some 4), (⟨2024, 5, 1⟩, some 5), (⟨2024, 6, 1⟩, some 6)]).1.historical_data =
      some [(⟨2024, 1, 1⟩, some 1), (⟨2024, 2, 1⟩, some 2), (⟨2024, 3, 1⟩, none),
         (⟨2024, 4, 1⟩, some 4), (⟨2024, 5, 1⟩, some 5), (⟨2024, 6, 1⟩, some 6)] ∧
    (prepare_data (initState 3 .ME "medium")
        [(⟨2024, 1, 1⟩, some 1), (⟨2024, 2, 1⟩, some 2), (⟨2024, 3, 1⟩, none),
         (⟨2024, 4, 1⟩, some 4), (⟨2024, 5, 1⟩, some 5), (⟨2024, 6, 1⟩, some 6)]).2 =
      some [(⟨2024, 1, 1⟩, some 1), (⟨2024, 2, 1⟩, some 2), (⟨2024, 3, 1⟩, some 3),
         (⟨2024, 4, 1⟩, some 4), (⟨2024, 5, 1⟩, some 5), (⟨2024, 6, 1⟩, some 6)] ∧
    ([(⟨2024, 1, 1⟩, some (1 : ℚ)), (⟨2024, 2, 1⟩, some 2), (⟨2024, 3, 1⟩, none),
      (⟨2024, 4, 1⟩, some 4), (⟨2024, 5, 1⟩, some 5), (⟨2024, 6, 1⟩, some 6)] : Series) ≠
      [(⟨2024, 1, 1⟩, some 1), (⟨2024, 2, 1⟩, some 2), (⟨2024, 3, 1⟩, some 3),
       (⟨2024, 4, 1⟩, some 4), (⟨2024, 5, 1⟩, some 5), (⟨2024, 6, 1⟩, some 6)] := by
  refine ⟨by decide, ?_, by decide⟩
  norm_num [prepare_data, sortDedup, dedupFirst, dedupFirstAux, leDate, Date.key,
    List.insertionSort, List.orderedInsert, interpolate, interpAt, prevValid, nextValid,
    List.range_succ, initState]

/-! ### Claim C8: exactness of the least-squares line on linear data -/

theorem list_sum_map_linear {α : Type} (l : List α) (g h : α → ℚ) (a b : ℚ) :
    (l.map (fun i => a * g i + b * h i)).sum
      = a * (l.map g).sum + b * (l.map h).sum := by
  induction l with
  | nil => simp
  | cons x xs ih =>
    simp only [List.map_cons, List.sum_cons, ih]
    ring

theorem list_sum_map_const_one {α : Type} (l : List α) :
    (l.map (fun _ => (1 : ℚ))).sum = l.length := by
  induction l with
  | nil => simp
  | cons x xs ih =>
    simp only [List.map_cons, List.sum_cons, ih, List.length_cons]
    push_cast
    ring

theorem sum_range_cast (n : ℕ) :
    ((List.range n).map (fun (i : ℕ) => (i : ℚ))).sum = (n : ℚ) * ((n : ℚ) - 1) / 2 := by
  induction n with
  | zero => simp
  | succ m ih =>
    rw [List.range_succ, List.map_append, List.sum_append, ih]
    simp only [List.map_cons, List.map_nil, List.sum_cons, List.sum_nil]
    push_cast
    ring

theorem sum_range_cast_sq (n : ℕ) :
    ((List.range n).map (fun (i : ℕ) => (i : ℚ) * (i : ℚ))).sum
      = (n : ℚ) * ((n : ℚ) - 1) * (2 * (n : ℚ) - 1) / 6 := by
  induction n with
  | zero => simp
  | succ m ih =>
    rw [List.range_succ, List.map_append, List.sum_append, ih]
    simp only [List.map_cons, List.map_nil, List.sum_cons, List.sum_nil]
    push_cast
    ring

theorem zipWith_mul_map {α : Type} (f g : α → ℚ) (l : List α) :
    List.zipWith (fun x y => x * y) (l.map f) (l.map g)
      = l.map (fun i => f i * g i) := by
  induction l with
  | nil => rfl
  | cons x xs ih =>
    rw [List.map_cons, List.map_cons, List.zipWith_cons_cons, ih, List.map_cons]

/-- `np.polyfit` on perfectly linear data recovers the line exactly (in
exact rational arithmetic). -/
theorem polyfit1_linear (a b : ℚ) (n : ℕ) (h2 : 2 ≤ n) :
    polyfit1 ((List.range n).map (fun (i : ℕ) => a * (i : ℚ) + b)) = (a, b) := by
  have hn2 : (2 : ℚ) ≤ (n : ℚ) := by exact_mod_cast h2
  have hn0 : (n : ℚ) ≠ 0 := by linarith
  unfold polyfit1
  simp only [List.length_map, List.length_range]
  have hxx : (((List.range n).map (fun (i : ℕ) => (i : ℚ))).map (fun x => x * x))
      = (List.range n).map (fun (i : ℕ) => (i : ℚ) * (i : ℚ)) := by
    rw [List.map_map]
    rfl
  rw [hxx, zipWith_mul_map]
  have hSy : ((List.range n).map (fun (i : ℕ) => a * (i : ℚ) + b)).sum
      = a * ((n : ℚ) * ((n : ℚ) - 1) / 2) + b * (n : ℚ) := by
    have hcongr : (fun i : ℕ => a * (i : ℚ) + b)
        = fun i : ℕ => a * (i : ℚ) + b * 1 := by
      funext i; ring
    rw [hcongr]
    rw [show (fun i : ℕ => a * (i : ℚ) + b * 1)
        = fun i : ℕ => a * (fun j : ℕ => (j : ℚ)) i + b * (fun _ : ℕ => (1 : ℚ)) i
      from rfl]
    rw [list_sum_map_linear, list_sum_map_const_one, sum_range_cast, List.length_range]
  have hSxy : ((List.range n).map (fun (i : ℕ) => (i : ℚ) * (a * (i : ℚ) + b))).sum
      = a * ((n : ℚ) * ((n : ℚ) - 1) * (2 * (n : ℚ) - 1) / 6)
        + b * ((n : ℚ) * ((n : ℚ) - 1) / 2) := by
    rw [show (fun i : ℕ => (i : ℚ) * (a * (i : ℚ) + b))
        = fun i : ℕ =>
            a * (fun j : ℕ => (j : ℚ) * (j : ℚ)) i + b * (fun j : ℕ => (j : ℚ)) i by
      funext i; ring]
    rw [list_sum_map_linear, sum_range_cast_sq, sum_range_cast]
  rw [hSy, hSxy, sum_range_cast, sum_range_cast_sq]
  have hden : (n : ℚ) * ((n : ℚ) * ((n : ℚ) - 1) * (2 * (n : ℚ) - 1) / 6)
      - (n : ℚ) * ((n : ℚ) - 1) / 2 * ((n : ℚ) * ((n : ℚ) - 1) / 2) ≠ 0 := by
    have heq : (n : ℚ) * ((n : ℚ) * ((n : ℚ) - 1) * (2 * (n : ℚ) - 1) / 6)
        - (n : ℚ) * ((n : ℚ) - 1) / 2 * ((n : ℚ) * ((n : ℚ) - 1) / 2)
        = (n : ℚ) * (n : ℚ) * ((n : ℚ) - 1) * ((n : ℚ) + 1) / 12 := by
      ring
    rw [heq]
    have h1 : (0 : ℚ) < (n : ℚ) := by linarith
    have h2q : (0 : ℚ) < (n : ℚ) - 1 := by linarith
    have h3 : (0 : ℚ) < (n : ℚ) + 1 := by linarith
    have := mul_pos (mul_pos (mul_pos h1 h1) h2q) h3
    exact ne_of_gt (by positivity)
  have hslope : ((n : ℚ) * (a * ((n : ℚ) * ((n : ℚ) - 1) * (2 * (n : ℚ) - 1) / 6)
          + b * ((n : ℚ) * ((n : ℚ) - 1) / 2))
        - (n : ℚ) * ((n : ℚ) - 1) / 2 * (a * ((n : ℚ) * ((n : ℚ) - 1) / 2) + b * (n : ℚ)))
      / ((n : ℚ) * ((n : ℚ) * ((n : ℚ) - 1) * (2 * (n : ℚ) - 1) / 6)
        - (n : ℚ) * ((n : ℚ) - 1) / 2 * ((n : ℚ) * ((n : ℚ) - 1) / 2)) = a := by
    rw [div_eq_iff hden]
    ring
  rw [Prod.mk.injEq]
  constructor
  · exact hslope
  · rw [hslope, div_eq_iff hn0]
    ring

/-- C8: whenever the historical series holds values lying exactly on the
line value = a*index + b (n ≥ 2 points), the trend-extrapolation forecast
continues that exact line: the k-th forecast value is a*(n+k) + b, so the
slope of the input is extended exactly (floats modelled as exact
rationals). -/
theorem c8_linear_history_extrapolated (st : ModelState) (hist : Series)
    (a b : ℚ) (n : ℕ) (h2 : 2 ≤ n) (hh : st.historical_data = some hist)
    (hv : hist.map Prod.snd = (List.range n).map (fun (i : ℕ) => some (a * (i : ℚ) + b))) :
    ∃ df, simpleTrendForecast st = some df ∧
      df.length = st.forecast_length ∧
      df.map Prod.snd = (List.range st.forecast_length).map
        (fun (k : ℕ) => some (a * ((n : ℚ) + (k : ℚ)) + b)) := by
  have hlenv : (hist.map Prod.snd).length = n := by rw [hv]; simp
  have hlenh : hist.length = n := by rw [← hlenv, List.length_map]
  have hne : hist ≠ [] := by
    intro hc
    rw [hc] at hlenh
    simp at hlenh
    omega
  obtain ⟨lastPt, hlp⟩ := Option.isSome_iff_exists.mp (List.getLast?_isSome.mpr hne)
  rw [simpleTrendForecast, hh]
  simp only [hlp]
  rw [if_neg (by rw [hlenv]; omega)]
  have hall : ((hist.map Prod.snd).all fun ov => ov.isSome) = true := by
    rw [hv, List.all_eq_true]
    intro x hx
    obtain ⟨i, _, hi⟩ := List.mem_map.mp hx
    rw [← hi]
    rfl
  rw [if_pos hall]
  have hgetD : (hist.map Prod.snd).map (fun ov => ov.getD 0)
      = (List.range n).map (fun (i : ℕ) => a * (i : ℚ) + b) := by
    rw [hv, List.map_map]
    rfl
  rw [hgetD, polyfit1_linear a b n h2, hlenv]
  refine ⟨_, rfl, ?_, ?_⟩
  · rw [List.length_zip, length_forecastDates, List.length_map, List.length_range,
      min_self]
  · rw [List.map_snd_zip _ _ (by
      rw [length_forecastDates, List.length_map, List.length_range])]
    rfl

/-- Witness for C8: ten monthly values 100, 110, ..., 190 and a 2-month
horizon extrapolate to 200 and 210. -/
theorem c8_linear_history_extrapolated_witness :
    2 ≤ 10 ∧
    (∃ df, simpleTrendForecast
        { initState 2 .ME "medium" with
            historical_data := some
              [(⟨2023, 3, 31⟩, some 100), (⟨2023, 4, 30⟩, some 110),
               (⟨2023, 5, 31⟩, some 120), (⟨2023, 6, 30⟩, some 130),
               (⟨2023, 7, 31⟩, some 140), (⟨2023, 8, 31⟩, some 150),
               (⟨2023, 9, 30⟩, some 160), (⟨2023, 10, 31⟩, some 170),
               (⟨2023, 11, 30⟩, some 180), (⟨2023, 12, 31⟩, some 190)] } = some df ∧
      df.length = 2 ∧
      df.map Prod.snd = (List.range 2).map
        (fun (k : ℕ) => some ((10 : ℚ) * ((10 : ℚ) + (k : ℚ)) + 100))) :=
  ⟨by decide,
    c8_linear_history_extrapolated
      { initState 2 .ME "medium" with
          historical_data := some
            [(⟨2023, 3, 31⟩, some 100), (⟨2023, 4, 30⟩, some 110),
             (⟨2023, 5, 31⟩, some 120), (⟨2023, 6, 30⟩, some 130),
             (⟨2023, 7, 31⟩, some 140), (⟨2023, 8, 31⟩, some 150),
             (⟨2023, 9, 30⟩, some 160), (⟨2023, 10, 31⟩, some 170),
             (⟨2023, 11, 30⟩, some 180), (⟨2023, 12, 31⟩, some 190)] }
      [(⟨2023, 3, 31⟩, some 100), (⟨2023, 4, 30⟩, some 110),
       (⟨2023, 5, 31⟩, some 120), (⟨2023, 6, 30⟩, some 130),
       (⟨2023, 7, 31⟩, some 140), (⟨2023, 8, 31⟩, some 150),
       (⟨2023, 9, 30⟩, some 160), (⟨2023, 10, 31⟩, some 170),
       (⟨2023, 11, 30⟩, some 180), (⟨2023, 12, 31⟩, some 190)]
      10 100 10 (by decide) rfl (by norm_num [List.range_succ])⟩

/-! ### Claim C10 -/

/-- C10: the candidate-model-set choice depends only on the complexity tier
(the data length is ignored), and every tier string other than simple,
medium and complex — not only the documented all — maps to the candidate
set all. -/
theorem c10_model_list_ignores_length :
    ∀ (tier : String) (n m : ℕ),
      getModelList tier n = getModelList tier m ∧
      (tier ≠ "simple" → tier ≠ "medium" → tier ≠ "complex" →
        getModelList tier n = "all") := by
  intro tier n m
  refine ⟨rfl, ?_⟩
  intro h1 h2 h3
  rw [getModelList, if_neg h1, if_neg h2, if_neg h3]

/-- Witness for C10: an arbitrary undocumented tier string falls through to
the full candidate set at any length. -/
theorem c10_model_list_ignores_length_witness :
    getModelList "turbo" 7 = getModelList "turbo" 5000 ∧
    getModelList "turbo" 7 = "all" :=
  ⟨(c10_model_list_ignores_length "turbo" 7 5000).1,
   (c10_model_list_ignores_length "turbo" 7 5000).2
     (by decide) (by decide) (by decide)⟩

end ForecastFlow
